import Mathlib

/-!
Verification development for the NoireCalendar repository.

Timestamps are modelled as integer counts of milliseconds (JS `Date.getTime()`),
with civil time at a fixed offset (no DST), so the date-fns day/week helpers
become integer arithmetic on milliseconds.  JS `Math.trunc` division is
`Int.tdiv`; JS floor division (day bucketing) is `Int.ediv` (`/` on `ℤ`).
Percentages computed by the view layout code are modelled in `ℚ`.
-/

namespace NoireCalendar

/-! ### Time primitives (date-fns on a fixed-offset time model) -/

/-- Milliseconds per day. -/
def msPerDay : Int := 86400000

/-- The civil day bucket of a timestamp (floor division, as JS local-date math). -/
def dayIndex (t : Int) : Int := t / 86400000

/-- date-fns `startOfDay`: midnight of the timestamp's day. -/
def startOfDay (t : Int) : Int := dayIndex t * 86400000

/-- date-fns `endOfDay`: 23:59:59.999 of the timestamp's day. -/
def endOfDay (t : Int) : Int := startOfDay t + 86399999

/-- Milliseconds elapsed since the most recent midnight. -/
def msOfDay (t : Int) : Int := t % 86400000

/-- date-fns `isSameDay`. -/
def isSameDay (a b : Int) : Bool := dayIndex a = dayIndex b

/-- JS `Date.prototype.getHours` (0..23). -/
def getHours (t : Int) : Int := msOfDay t / 3600000

/-- JS `Date.prototype.getMinutes` (0..59). -/
def getMinutes (t : Int) : Int := msOfDay t / 60000 % 60

/-- date-fns `differenceInMinutes` (default rounding: truncation toward zero). -/
def differenceInMinutes (later earlier : Int) : Int := Int.tdiv (later - earlier) 60000

/-- JS `Date.prototype.getDay`: weekday with 0 = Sunday (1970-01-01 was a Thursday). -/
def getDay (t : Int) : Int := (dayIndex t + 4) % 7

/-- date-fns v3 `areIntervalsOverlapping` with default (strict) options: each
interval is normalised by sorting its endpoints, then strict overlap is tested. -/
def areIntervalsOverlapping (s1 e1 s2 e2 : Int) : Bool :=
  min s1 e1 < max s2 e2 && min s2 e2 < max s1 e1

/-- date-fns v3 `isWithinInterval`: the instant lies in the (sorted) closed interval. -/
def isWithinInterval (t s e : Int) : Bool := min s e ≤ t && t ≤ max s e

/-- date-fns `addDays` in the fixed-offset model. -/
def addDays (t n : Int) : Int := t + n * 86400000

/-- date-fns `startOfWeek`: back up to the most recent `weekStartsOn` weekday, at midnight. -/
def startOfWeek (t weekStartsOn : Int) : Int :=
  startOfDay (addDays t (-((getDay t - weekStartsOn + 7) % 7)))

/-- date-fns `endOfWeek`: forward to the last day of the week, at 23:59:59.999. -/
def endOfWeek (t weekStartsOn : Int) : Int :=
  endOfDay (addDays t (6 - (getDay t - weekStartsOn + 7) % 7))

/-- Days from 1970-01-01 to the civil date y-m-d (Gregorian). -/
def daysFromCivil (y m d : Int) : Int :=
  let yAdj := if m ≤ 2 then y - 1 else y
  let era := yAdj / 400
  let yoe := yAdj - era * 400
  let mp := (m + 9) % 12
  let doy := (153 * mp + 2) / 5 + d - 1
  let doe := yoe * 365 + yoe / 4 - yoe / 100 + doy
  era * 146097 + doe - 719468

/-- Timestamp (ms) of the civil instant y-m-d h:mi:s.ms in the fixed-offset model. -/
def mkDate (y m d h mi s ms : Int) : Int :=
  daysFromCivil y m d * 86400000 + h * 3600000 + mi * 60000 + s * 1000 + ms

/-! ### Data model (shared/schema.ts) -/

/-- Domain event as mapped by `mapDbEventToEvent` (fields relevant to the claims). -/
structure Event where
  id : Nat
  userId : Nat
  title : String
  startDate : Int
  endDate : Int
  allDay : Bool
  deriving Repr, DecidableEq

/-- Database row of the `events` table (`userId` column is nullable). -/
structure DbEvent where
  id : Nat
  userId : Option Nat
  title : String
  startDate : Int
  endDate : Int
  allDay : Bool
  deriving Repr, DecidableEq

/-! ### Storage layer (server/storage.ts, DatabaseStorage) -/

/-- `DatabaseStorage.defaultUserId`. -/
def defaultUserId : Nat := 1

/-- `mapDbEventToEvent`: throws when the row has no user id. -/
def mapDbEventToEvent (r : DbEvent) : Except String Event :=
  match r.userId with
  | none => .error "Event has no user id"
  | some u => .ok { id := r.id, userId := u, title := r.title,
                    startDate := r.startDate, endDate := r.endDate, allDay := r.allDay }

/-- JS `Array.prototype.map` over a throwing mapper: the first throw aborts. -/
def mapRows : List DbEvent → Except String (List Event)
  | [] => .ok []
  | r :: rs =>
      match mapDbEventToEvent r with
      | .error s => .error s
      | .ok e =>
          match mapRows rs with
          | .error s => .error s
          | .ok es => .ok (e :: es)

/-- `getEvent(id)`: select by id (no user filter), map the row if found. -/
def getEvent (db : List DbEvent) (id : Nat) : Except String (Option Event) :=
  match db.find? (fun r => r.id = id) with
  | none => .ok none
  | some r => (mapDbEventToEvent r).map some

/-- `getEvents(userId = defaultUserId)`: rows of the user, ordered by startDate descending. -/
def getEvents (db : List DbEvent) (userId : Option Nat) : Except String (List Event) :=
  mapRows ((db.filter (fun r => decide (r.userId = some (userId.getD defaultUserId)))).mergeSort
    (fun a b => decide (b.startDate ≤ a.startDate)))

/-- `getEventsByDateRange(start, end, userId = defaultUserId)`: the drizzle WHERE clause is
`userId = u AND startDate >= start AND endDate <= end`, ordered by startDate ascending. -/
def getEventsByDateRange (db : List DbEvent) (start stop : Int) (userId : Option Nat) :
    Except String (List Event) :=
  mapRows ((db.filter (fun r =>
      decide (r.userId = some (userId.getD defaultUserId)) && decide (start ≤ r.startDate) &&
      decide (r.endDate ≤ stop))).mergeSort
    (fun a b => decide (a.startDate ≤ b.startDate)))

/-! ### View layout (client DayView / WeekView components) -/

/-- Render-ready positioned record produced by the views ("...event" spread plus
`topPercentage`/`heightPercentage` on the 24-hour axis). -/
structure PositionedEvent where
  event : Event
  topPercentage : ℚ
  heightPercentage : ℚ
  deriving Repr, DecidableEq

/-- DayView `startMinutes`: minutes since midnight of the event's start when it starts on
the viewed day, else 0 (`eventStartHour.setHours(...)` then `getHours()*60 + getMinutes()`). -/
def dayViewStartMinutes (e : Event) (currentDate : Int) : Int :=
  if isSameDay e.startDate currentDate then getHours e.startDate * 60 + getMinutes e.startDate
  else 0

/-- DayView `durationMinutes`: full event duration, replaced by the span from the event's
start to the end of the viewed day when the event's start and end fall on different days. -/
def dayViewDurationMinutes (e : Event) (currentDate : Int) : Int :=
  if isSameDay e.startDate e.endDate then differenceInMinutes e.endDate e.startDate
  else differenceInMinutes (endOfDay currentDate) e.startDate

/-- DayView per-event layout: `topPercentage = startMinutes/(24*60)*100`,
`heightPercentage = max(durationMinutes/(24*60)*100, 1)`. -/
def dayViewLayout (e : Event) (currentDate : Int) : PositionedEvent :=
  { event := e
    topPercentage := (dayViewStartMinutes e currentDate : ℚ) / (24 * 60) * 100
    heightPercentage := max ((dayViewDurationMinutes e currentDate : ℚ) / (24 * 60) * 100) 1 }

/-- DayView `processedEvents`: drop all-day events, lay each out, keep those whose
interval overlaps the viewed day's window. -/
def dayViewProcessedEvents (events : List Event) (currentDate : Int) : List PositionedEvent :=
  ((events.filter (fun e => !e.allDay)).map (fun e => dayViewLayout e currentDate)).filter
    (fun p => areIntervalsOverlapping (startOfDay currentDate) (endOfDay currentDate)
      p.event.startDate p.event.endDate)

/-- DayView `allDayEvents`: all-day events whose interval contains the anchor instant
`currentDate` itself (`isWithinInterval(currentDate, {start, end})`). -/
def dayViewAllDayEvents (events : List Event) (currentDate : Int) : List Event :=
  events.filter (fun e => e.allDay && isWithinInterval currentDate e.startDate e.endDate)

/-- WeekView per-event layout for one day of the week: same formulas as DayView. -/
def weekViewLayout (e : Event) (day : Int) : PositionedEvent :=
  { event := e
    topPercentage := (dayViewStartMinutes e day : ℚ) / (24 * 60) * 100
    heightPercentage := max ((dayViewDurationMinutes e day : ℚ) / (24 * 60) * 100) 1 }

/-- WeekView `processedEvents` for one day: filter non-all-day events overlapping the
day's window, then lay each out. -/
def weekViewDayEvents (events : List Event) (day : Int) : List PositionedEvent :=
  (events.filter (fun e => !e.allDay &&
      areIntervalsOverlapping (startOfDay day) (endOfDay day) e.startDate e.endDate)).map
    (fun e => weekViewLayout e day)

/-- WeekView `getAllDayEventsForDay`: all-day events overlapping the day's closed window. -/
def getAllDayEventsForDay (events : List Event) (day : Int) : List Event :=
  events.filter (fun e => e.allDay &&
    areIntervalsOverlapping (startOfDay day) (endOfDay day) e.startDate e.endDate)

/-! ### Range resolution (client/src/hooks/useCalendar.ts `dateRange`, week case) -/

/-- `dateRange` for the week view: `startOfWeek`/`endOfWeek` with `weekStartsOn: 0`
hardcoded (the stored `startOfWeek` setting is not consulted). -/
def dateRangeWeek (currentDate : Int) : Int × Int :=
  (startOfWeek currentDate 0, endOfWeek currentDate 0)

/-! ### Settings (server/storage.ts getSettings/updateSettings; text columns at runtime) -/

/-- Stored `settings` row (the enum columns are `text NOT NULL` in the database). -/
structure StoredSettings where
  theme : String
  startOfWeek : String
  timeFormat : String
  eventDisplayMode : String
  deriving Repr, DecidableEq

/-- A `Partial<CalendarSettings>` request body: each field possibly absent.  At runtime the
body is arbitrary JSON, so field values are arbitrary strings. -/
structure SettingsPatch where
  theme : Option String
  startOfWeek : Option String
  timeFormat : Option String
  eventDisplayMode : Option String
  deriving Repr, DecidableEq

/-- JS `a || b` for an optional string `a`: absent and empty strings are falsy. -/
def jsOr (v : Option String) (fallback : String) : String :=
  match v with
  | some s => if s = "" then fallback else s
  | none => fallback

/-- JS `a || b` for a string `a`: the empty string is falsy. -/
def jsOrStr (s fallback : String) : String := if s = "" then fallback else s

/-- `updateSettings(newSettings, userId = defaultUserId)` against a store mapping user ids
to their settings row: read-modify-write with JS `||` fallbacks, update when a row exists,
insert otherwise; returns the response value and the new store. -/
def updateSettings (p : SettingsPatch) (userId : Option Nat)
    (store : Nat → Option StoredSettings) : StoredSettings × (Nat → Option StoredSettings) :=
  match store (userId.getD defaultUserId) with
  | some ex =>
      let updated : StoredSettings :=
        { theme := jsOr p.theme ex.theme
          startOfWeek := jsOr p.startOfWeek ex.startOfWeek
          timeFormat := jsOr p.timeFormat ex.timeFormat
          eventDisplayMode := jsOr p.eventDisplayMode (jsOrStr ex.eventDisplayMode "dots") }
      let returned : StoredSettings :=
        { updated with eventDisplayMode := jsOrStr updated.eventDisplayMode "dots" }
      (returned, fun v => if v = userId.getD defaultUserId then some updated else store v)
  | none =>
      let created : StoredSettings :=
        { theme := jsOr p.theme "dark"
          startOfWeek := jsOr p.startOfWeek "sunday"
          timeFormat := jsOr p.timeFormat "12h"
          eventDisplayMode := jsOr p.eventDisplayMode "dots" }
      let returned : StoredSettings :=
        { created with eventDisplayMode := jsOrStr created.eventDisplayMode "dots" }
      (returned, fun v => if v = userId.getD defaultUserId then some created else store v)

/-! ### Helper lemmas -/

theorem startOfDay_le_endOfDay (t : Int) : startOfDay t ≤ endOfDay t := by
  unfold endOfDay; omega

theorem dayIndex_eq_of_inDay {t D : Int} (h1 : startOfDay D ≤ t) (h2 : t ≤ endOfDay D) :
    dayIndex t = dayIndex D := by
  simp only [endOfDay, startOfDay, dayIndex] at h1 h2 ⊢
  omega

theorem startOfDay_eq_of_dayIndex {t D : Int} (h : dayIndex t = dayIndex D) :
    startOfDay t = startOfDay D := by
  unfold startOfDay
  rw [h]

theorem mapRows_mem {rows : List DbEvent} {l : List Event} (h : mapRows rows = .ok l)
    (x : Event) : x ∈ l ↔ ∃ r ∈ rows, mapDbEventToEvent r = .ok x := by
  induction rows generalizing l with
  | nil =>
      simp only [mapRows, Except.ok.injEq] at h
      subst h
      simp
  | cons r rs ih =>
      simp only [mapRows] at h
      cases hr : mapDbEventToEvent r with
      | error s => rw [hr] at h; exact Except.noConfusion h
      | ok e =>
          rw [hr] at h
          cases hrs : mapRows rs with
          | error s => rw [hrs] at h; exact Except.noConfusion h
          | ok es =>
              rw [hrs] at h
              have h' : e :: es = l := by injection h
              subst h'
              simp only [List.mem_cons, ih hrs]
              constructor
              · rintro (rfl | ⟨r', hr', hx⟩)
                · exact ⟨r, Or.inl rfl, hr⟩
                · exact ⟨r', Or.inr hr', hx⟩
              · rintro ⟨r', rfl | hr', hx⟩
                · left
                  rw [hr] at hx
                  injection hx with hx
                  exact hx.symm
                · right
                  exact ⟨r', hr', hx⟩

theorem mapDbEventToEvent_ok_userId {r : DbEvent} {x : Event}
    (h : mapDbEventToEvent r = .ok x) : r.userId = some x.userId := by
  unfold mapDbEventToEvent at h
  cases hu : r.userId with
  | none => rw [hu] at h; exact absurd h (by simp)
  | some u =>
      rw [hu] at h
      simp only [Except.ok.injEq] at h
      subst h
      rfl

/-! ### Claim C1 -/

/-- Claim C1, counterexample: an event that starts before the query window but ends inside
it satisfies the half-open overlap test (`startDate < end` and `start < endDate`), yet
`getEventsByDateRange` returns the empty list, because its WHERE clause demands
containment (`startDate >= start AND endDate <= end`), not overlap. -/
theorem rangeQuery_overlap_claim_false :
    (getEventsByDateRange
        [{ id := 1, userId := some 1, title := "spill",
           startDate := mkDate 2024 1 5 9 0 0 0, endDate := mkDate 2024 1 15 9 0 0 0,
           allDay := false }]
        (mkDate 2024 1 10 0 0 0 0) (mkDate 2024 1 20 0 0 0 0) none = .ok []) ∧
    mkDate 2024 1 5 9 0 0 0 < mkDate 2024 1 20 0 0 0 0 ∧
    mkDate 2024 1 10 0 0 0 0 < mkDate 2024 1 15 9 0 0 0 := by
  refine ⟨?_, by decide, by decide⟩
  have hfilter :
      List.filter (fun r : DbEvent =>
          decide (r.userId = some ((none : Option Nat).getD defaultUserId)) &&
          decide (mkDate 2024 1 10 0 0 0 0 ≤ r.startDate) &&
          decide (r.endDate ≤ mkDate 2024 1 20 0 0 0 0))
        [{ id := 1, userId := some 1, title := "spill",
           startDate := mkDate 2024 1 5 9 0 0 0, endDate := mkDate 2024 1 15 9 0 0 0,
           allDay := false }] = [] := by decide
  unfold getEventsByDateRange
  rw [hfilter, List.mergeSort_nil]
  rfl

/-- Claim C1 (amended): `getEventsByDateRange(start, end, userId)` returns exactly the
user's events whose interval is contained in the closed window: a row is reflected in the
output iff its `userId` matches the (defaulted) requested user, `start ≤ startDate` and
`endDate ≤ end` — containment with inclusive boundaries, not half-open overlap, so an
event that merely overlaps the window (e.g. starts before it) is omitted. -/
theorem getEventsByDateRange_containment (db : List DbEvent) (start stop : Int)
    (userId : Option Nat) (l : List Event) (x : Event)
    (h : getEventsByDateRange db start stop userId = .ok l) :
    x ∈ l ↔ ∃ r ∈ db, mapDbEventToEvent r = .ok x ∧
      r.userId = some (userId.getD defaultUserId) ∧
      start ≤ r.startDate ∧ r.endDate ≤ stop := by
  unfold getEventsByDateRange at h
  rw [mapRows_mem h x]
  constructor
  · rintro ⟨r, hr, hx⟩
    rw [List.mem_mergeSort, List.mem_filter] at hr
    obtain ⟨hrdb, hcond⟩ := hr
    simp only [Bool.and_eq_true, decide_eq_true_eq] at hcond
    exact ⟨r, hrdb, hx, hcond.1.1, hcond.1.2, hcond.2⟩
  · rintro ⟨r, hrdb, hx, h1, h2, h3⟩
    refine ⟨r, ?_, hx⟩
    rw [List.mem_mergeSort, List.mem_filter]
    refine ⟨hrdb, ?_⟩
    simp only [Bool.and_eq_true, decide_eq_true_eq]
    exact ⟨⟨h1, h2⟩, h3⟩

/-- Witness for C1's amended theorem at a one-row database. -/
theorem getEventsByDateRange_containment_witness :
    (getEventsByDateRange
        [{ id := 1, userId := some 1, title := "inside",
           startDate := mkDate 2024 1 12 9 0 0 0, endDate := mkDate 2024 1 13 9 0 0 0,
           allDay := false }]
        (mkDate 2024 1 10 0 0 0 0) (mkDate 2024 1 20 0 0 0 0) none =
      .ok [{ id := 1, userId := 1, title := "inside",
             startDate := mkDate 2024 1 12 9 0 0 0, endDate := mkDate 2024 1 13 9 0 0 0,
             allDay := false }]) ∧
    ({ id := 1, userId := 1, title := "inside",
       startDate := mkDate 2024 1 12 9 0 0 0, endDate := mkDate 2024 1 13 9 0 0 0,
       allDay := false } ∈
      [({ id := 1, userId := 1, title := "inside",
          startDate := mkDate 2024 1 12 9 0 0 0, endDate := mkDate 2024 1 13 9 0 0 0,
          allDay := false } : Event)] ↔
      ∃ r ∈ [({ id := 1, userId := some 1, title := "inside",
                startDate := mkDate 2024 1 12 9 0 0 0, endDate := mkDate 2024 1 13 9 0 0 0,
                allDay := false } : DbEvent)],
        mapDbEventToEvent r =
          .ok { id := 1, userId := 1, title := "inside",
                startDate := mkDate 2024 1 12 9 0 0 0, endDate := mkDate 2024 1 13 9 0 0 0,
                allDay := false } ∧
        r.userId = some ((none : Option Nat).getD defaultUserId) ∧
        mkDate 2024 1 10 0 0 0 0 ≤ r.startDate ∧
        r.endDate ≤ mkDate 2024 1 20 0 0 0 0) := by
  have h : getEventsByDateRange
      [{ id := 1, userId := some 1, title := "inside",
         startDate := mkDate 2024 1 12 9 0 0 0, endDate := mkDate 2024 1 13 9 0 0 0,
         allDay := false }]
      (mkDate 2024 1 10 0 0 0 0) (mkDate 2024 1 20 0 0 0 0) none =
      .ok [{ id := 1, userId := 1, title := "inside",
             startDate := mkDate 2024 1 12 9 0 0 0, endDate := mkDate 2024 1 13 9 0 0 0,
             allDay := false }] := by
    have hfilter :
        List.filter (fun r : DbEvent =>
            decide (r.userId = some ((none : Option Nat).getD defaultUserId)) &&
            decide (mkDate 2024 1 10 0 0 0 0 ≤ r.startDate) &&
            decide (r.endDate ≤ mkDate 2024 1 20 0 0 0 0))
          [{ id := 1, userId := some 1, title := "inside",
             startDate := mkDate 2024 1 12 9 0 0 0, endDate := mkDate 2024 1 13 9 0 0 0,
             allDay := false }] =
          [{ id := 1, userId := some 1, title := "inside",
             startDate := mkDate 2024 1 12 9 0 0 0, endDate := mkDate 2024 1 13 9 0 0 0,
             allDay := false }] := by decide
    unfold getEventsByDateRange
    rw [hfilter, List.mergeSort_singleton]
    rfl
  exact ⟨h, getEventsByDateRange_containment _ _ _ _ _ _ h⟩

/-! ### Claim C10 -/

/-- Claim C10: both event queries filter on `userId = u` (with `u` defaulting to the fixed
user id 1 when omitted), so every event they return belongs to the requested user. -/
theorem events_scoped_to_user (db : List DbEvent) (userId : Option Nat)
    (start stop : Int) (l1 l2 : List Event) (x y : Event)
    (h1 : getEvents db userId = .ok l1)
    (h2 : getEventsByDateRange db start stop userId = .ok l2) :
    (x ∈ l1 → x.userId = userId.getD defaultUserId) ∧
    (y ∈ l2 → y.userId = userId.getD defaultUserId) := by
  constructor
  · intro hx
    unfold getEvents at h1
    rw [mapRows_mem h1 x] at hx
    obtain ⟨r, hr, hmap⟩ := hx
    rw [List.mem_mergeSort, List.mem_filter, decide_eq_true_eq] at hr
    have := mapDbEventToEvent_ok_userId hmap
    rw [hr.2] at this
    exact (Option.some_inj.mp this).symm
  · intro hy
    unfold getEventsByDateRange at h2
    rw [mapRows_mem h2 y] at hy
    obtain ⟨r, hr, hmap⟩ := hy
    rw [List.mem_mergeSort, List.mem_filter] at hr
    have hcond := hr.2
    simp only [Bool.and_eq_true, decide_eq_true_eq] at hcond
    have := mapDbEventToEvent_ok_userId hmap
    rw [hcond.1.1] at this
    exact (Option.some_inj.mp this).symm

/-- Witness for C10 at a one-row database queried without an explicit user id. -/
theorem events_scoped_to_user_witness :
    (getEvents [{ id := 7, userId := some 1, title := "mine",
                  startDate := 1000, endDate := 2000, allDay := false }] none =
      .ok [{ id := 7, userId := 1, title := "mine",
             startDate := 1000, endDate := 2000, allDay := false }]) ∧
    (getEventsByDateRange [{ id := 7, userId := some 1, title := "mine",
                             startDate := 1000, endDate := 2000, allDay := false }]
        0 5000 none =
      .ok [{ id := 7, userId := 1, title := "mine",
             startDate := 1000, endDate := 2000, allDay := false }]) ∧
    (({ id := 7, userId := 1, title := "mine",
        startDate := 1000, endDate := 2000, allDay := false } : Event) ∈
        [({ id := 7, userId := 1, title := "mine",
            startDate := 1000, endDate := 2000, allDay := false } : Event)] →
      ({ id := 7, userId := 1, title := "mine",
         startDate := 1000, endDate := 2000, allDay := false } : Event).userId =
        (none : Option Nat).getD defaultUserId) := by
  have h1 : getEvents [{ id := 7, userId := some 1, title := "mine",
                         startDate := 1000, endDate := 2000, allDay := false }] none =
      .ok [{ id := 7, userId := 1, title := "mine",
             startDate := 1000, endDate := 2000, allDay := false }] := by
    have hfilter : List.filter (fun r : DbEvent =>
          decide (r.userId = some ((none : Option Nat).getD defaultUserId)))
        [{ id := 7, userId := some 1, title := "mine",
           startDate := 1000, endDate := 2000, allDay := false }] =
        [{ id := 7, userId := some 1, title := "mine",
           startDate := 1000, endDate := 2000, allDay := false }] := by decide
    unfold getEvents
    rw [hfilter, List.mergeSort_singleton]
    rfl
  have h2 : getEventsByDateRange [{ id := 7, userId := some 1, title := "mine",
                                    startDate := 1000, endDate := 2000, allDay := false }]
      0 5000 none =
      .ok [{ id := 7, userId := 1, title := "mine",
             startDate := 1000, endDate := 2000, allDay := false }] := by
    have hfilter : List.filter (fun r : DbEvent =>
          decide (r.userId = some ((none : Option Nat).getD defaultUserId)) &&
          decide ((0 : Int) ≤ r.startDate) && decide (r.endDate ≤ (5000 : Int)))
        [{ id := 7, userId := some 1, title := "mine",
           startDate := 1000, endDate := 2000, allDay := false }] =
        [{ id := 7, userId := some 1, title := "mine",
           startDate := 1000, endDate := 2000, allDay := false }] := by decide
    unfold getEventsByDateRange
    rw [hfilter, List.mergeSort_singleton]
    rfl
  exact ⟨h1, h2,
    (events_scoped_to_user _ none 0 5000 _ _
      { id := 7, userId := 1, title := "mine", startDate := 1000, endDate := 2000,
        allDay := false }
      { id := 7, userId := 1, title := "mine", startDate := 1000, endDate := 2000,
        allDay := false } h1 h2).1⟩

/-! ### Layout arithmetic lemmas -/

theorem startMinutes_bounds (t : Int) :
    0 ≤ getHours t * 60 + getMinutes t ∧ getHours t * 60 + getMinutes t ≤ 1439 ∧
    (getHours t * 60 + getMinutes t) * 60000 ≤ msOfDay t := by
  simp only [getHours, getMinutes, msOfDay]
  omega

theorem msOfDay_eq_of_inDay {t D : Int} (h1 : startOfDay D ≤ t) (h2 : t ≤ endOfDay D) :
    msOfDay t = t - startOfDay D := by
  simp only [endOfDay, startOfDay, dayIndex, msOfDay] at *
  omega

theorem weekViewLayout_eq_dayViewLayout (e : Event) (d : Int) :
    weekViewLayout e d = dayViewLayout e d := rfl

theorem inDay_minute_bounds {e : Event} {D : Int}
    (h1 : startOfDay D ≤ e.startDate) (h2 : e.endDate ≤ endOfDay D)
    (h3 : e.startDate < e.endDate) :
    0 ≤ dayViewStartMinutes e D ∧ 0 ≤ dayViewDurationMinutes e D ∧
    dayViewStartMinutes e D + dayViewDurationMinutes e D ≤ 1439 := by
  have hsD : isSameDay e.startDate D = true := by
    simp only [isSameDay, decide_eq_true_eq]
    exact dayIndex_eq_of_inDay h1 (le_trans h3.le h2)
  have hse : isSameDay e.startDate e.endDate = true := by
    simp only [isSameDay, decide_eq_true_eq]
    rw [dayIndex_eq_of_inDay h1 (le_trans h3.le h2),
        dayIndex_eq_of_inDay (le_trans h1 h3.le) h2]
  have hsmeq : dayViewStartMinutes e D = getHours e.startDate * 60 + getMinutes e.startDate := by
    simp [dayViewStartMinutes, hsD]
  have hdmeq : dayViewDurationMinutes e D = (e.endDate - e.startDate) / 60000 := by
    simp only [dayViewDurationMinutes, hse, if_true, differenceInMinutes]
    exact Int.tdiv_eq_ediv (by omega) (by omega)
  have hms : msOfDay e.startDate = e.startDate - startOfDay D :=
    msOfDay_eq_of_inDay h1 (le_trans h3.le h2)
  have hsb := startMinutes_bounds e.startDate
  rw [hsmeq, hdmeq]
  simp only [endOfDay] at h2
  omega

theorem layout_sum_bounds_core {e : Event} {D : Int}
    (h1 : startOfDay D ≤ e.startDate) (h2 : e.endDate ≤ endOfDay D)
    (h3 : e.startDate < e.endDate) :
    0 ≤ (dayViewLayout e D).topPercentage ∧
    (dayViewLayout e D).topPercentage + (dayViewLayout e D).heightPercentage < 101 ∧
    (15 ≤ dayViewDurationMinutes e D →
      (dayViewLayout e D).topPercentage + (dayViewLayout e D).heightPercentage ≤ 100) := by
  obtain ⟨hsm0, hdm0, hsum⟩ := inDay_minute_bounds h1 h2 h3
  simp only [dayViewLayout]
  set a : ℚ := (dayViewStartMinutes e D : ℚ) with ha
  set b : ℚ := (dayViewDurationMinutes e D : ℚ) with hb
  have ha0 : 0 ≤ a := by rw [ha]; exact_mod_cast hsm0
  have hb0 : 0 ≤ b := by rw [hb]; exact_mod_cast hdm0
  have hab : a + b ≤ 1439 := by rw [ha, hb]; exact_mod_cast hsum
  have ha1439 : a ≤ 1439 := by linarith
  refine ⟨by positivity, ?_, ?_⟩
  · rcases le_total 1 (b / (24 * 60) * 100) with hc | hc
    · rw [max_eq_left hc]
      linarith
    · rw [max_eq_right hc]
      linarith
  · intro h15
    have hb15 : (15 : ℚ) ≤ b := by rw [hb]; exact_mod_cast h15
    have hc : (1 : ℚ) ≤ b / (24 * 60) * 100 := by linarith
    rw [max_eq_left hc]
    linarith

/-! ### Claim C4 -/

/-- Claim C4, counterexample: the five-minute event 23:50–23:55, fully inside its day with
positive duration, gets `topPercentage ≈ 99.31` and the clamped minimum height 1, so
`topPercentage + heightPercentage > 100`, refuting the claimed invariant. -/
theorem layout_sum_exceeds_100_near_midnight :
    startOfDay (mkDate 2024 1 1 0 0 0 0) ≤
      mkDate 2024 1 1 23 50 0 0 ∧
    mkDate 2024 1 1 23 55 0 0 ≤ endOfDay (mkDate 2024 1 1 0 0 0 0) ∧
    mkDate 2024 1 1 23 50 0 0 < mkDate 2024 1 1 23 55 0 0 ∧
    100 <
      (dayViewLayout
          { id := 1, userId := 1, title := "late", startDate := mkDate 2024 1 1 23 50 0 0,
            endDate := mkDate 2024 1 1 23 55 0 0, allDay := false }
          (mkDate 2024 1 1 0 0 0 0)).topPercentage +
      (dayViewLayout
          { id := 1, userId := 1, title := "late", startDate := mkDate 2024 1 1 23 50 0 0,
            endDate := mkDate 2024 1 1 23 55 0 0, allDay := false }
          (mkDate 2024 1 1 0 0 0 0)).heightPercentage := by
  refine ⟨by decide, by decide, by decide, ?_⟩
  have hsm : dayViewStartMinutes
      { id := 1, userId := 1, title := "late", startDate := mkDate 2024 1 1 23 50 0 0,
        endDate := mkDate 2024 1 1 23 55 0 0, allDay := false }
      (mkDate 2024 1 1 0 0 0 0) = 1430 := by decide
  have hdm : dayViewDurationMinutes
      { id := 1, userId := 1, title := "late", startDate := mkDate 2024 1 1 23 50 0 0,
        endDate := mkDate 2024 1 1 23 55 0 0, allDay := false }
      (mkDate 2024 1 1 0 0 0 0) = 5 := by decide
  simp only [dayViewLayout, hsm, hdm]
  rw [max_eq_right (by norm_num)]
  norm_num

/-- Claim C4 (amended): for an event fully inside day D with positive duration, both views
give `topPercentage ≥ 0`, and `topPercentage + heightPercentage ≤ 100` holds whenever the
computed duration is at least 15 minutes (so the 1% minimum-height clamp is not engaged);
when the clamp is engaged the sum can exceed 100 but always stays below 101. -/
theorem layout_bounds_within_day (e : Event) (D : Int)
    (h1 : startOfDay D ≤ e.startDate) (h2 : e.endDate ≤ endOfDay D)
    (h3 : e.startDate < e.endDate) :
    (0 ≤ (dayViewLayout e D).topPercentage ∧
     (dayViewLayout e D).topPercentage + (dayViewLayout e D).heightPercentage < 101 ∧
     (15 ≤ dayViewDurationMinutes e D →
       (dayViewLayout e D).topPercentage + (dayViewLayout e D).heightPercentage ≤ 100)) ∧
    (0 ≤ (weekViewLayout e D).topPercentage ∧
     (weekViewLayout e D).topPercentage + (weekViewLayout e D).heightPercentage < 101 ∧
     (15 ≤ dayViewDurationMinutes e D →
       (weekViewLayout e D).topPercentage + (weekViewLayout e D).heightPercentage ≤ 100)) := by
  have h := layout_sum_bounds_core h1 h2 h3
  rw [weekViewLayout_eq_dayViewLayout]
  exact ⟨h, h⟩

/-- Witness for C4's amended theorem: a 09:00–10:00 event on 2024-01-01. -/
theorem layout_bounds_within_day_witness :
    (startOfDay (mkDate 2024 1 1 12 0 0 0) ≤ mkDate 2024 1 1 9 0 0 0 ∧
     mkDate 2024 1 1 10 0 0 0 ≤ endOfDay (mkDate 2024 1 1 12 0 0 0) ∧
     mkDate 2024 1 1 9 0 0 0 < mkDate 2024 1 1 10 0 0 0) ∧
    (0 ≤ (dayViewLayout
        { id := 2, userId := 1, title := "m", startDate := mkDate 2024 1 1 9 0 0 0,
          endDate := mkDate 2024 1 1 10 0 0 0, allDay := false }
        (mkDate 2024 1 1 12 0 0 0)).topPercentage ∧
     (dayViewLayout
        { id := 2, userId := 1, title := "m", startDate := mkDate 2024 1 1 9 0 0 0,
          endDate := mkDate 2024 1 1 10 0 0 0, allDay := false }
        (mkDate 2024 1 1 12 0 0 0)).topPercentage +
      (dayViewLayout
        { id := 2, userId := 1, title := "m", startDate := mkDate 2024 1 1 9 0 0 0,
          endDate := mkDate 2024 1 1 10 0 0 0, allDay := false }
        (mkDate 2024 1 1 12 0 0 0)).heightPercentage < 101 ∧
     (15 ≤ dayViewDurationMinutes
        { id := 2, userId := 1, title := "m", startDate := mkDate 2024 1 1 9 0 0 0,
          endDate := mkDate 2024 1 1 10 0 0 0, allDay := false }
        (mkDate 2024 1 1 12 0 0 0) →
       (dayViewLayout
          { id := 2, userId := 1, title := "m", startDate := mkDate 2024 1 1 9 0 0 0,
            endDate := mkDate 2024 1 1 10 0 0 0, allDay := false }
          (mkDate 2024 1 1 12 0 0 0)).topPercentage +
       (dayViewLayout
          { id := 2, userId := 1, title := "m", startDate := mkDate 2024 1 1 9 0 0 0,
            endDate := mkDate 2024 1 1 10 0 0 0, allDay := false }
          (mkDate 2024 1 1 12 0 0 0)).heightPercentage ≤ 100)) := by
  refine ⟨⟨by decide, by decide, by decide⟩, ?_⟩
  exact (layout_bounds_within_day
    { id := 2, userId := 1, title := "m", startDate := mkDate 2024 1 1 9 0 0 0,
      endDate := mkDate 2024 1 1 10 0 0 0, allDay := false }
    (mkDate 2024 1 1 12 0 0 0) (by decide) (by decide) (by decide)).1

/-! ### Claim C2 -/

/-- Claim C2 (code bug witnessed on the code): for the spec's example event
2024-01-01T22:00 → 2024-01-02T02:00, the day-2 record is rendered (it passes the overlap
filter) with topPercentage = 0 but heightPercentage = 7795/72 ≈ 108.26 — the duration is
measured from the event's original start on day 1 to 23:59:59.999 of day 2, never clamped
to day 2 — instead of the claimed ≈ 8.33; day 1 gets topPercentage = 275/3 ≈ 91.67 and
heightPercentage = 595/72 ≈ 8.26 (119 minutes, truncated against the 23:59:59.999 end). -/
theorem multiDay_secondDay_height_overflows :
    (dayViewLayout
        { id := 5, userId := 1, title := "night", startDate := mkDate 2024 1 1 22 0 0 0,
          endDate := mkDate 2024 1 2 2 0 0 0, allDay := false }
        (mkDate 2024 1 2 0 0 0 0)).topPercentage = 0 ∧
    (dayViewLayout
        { id := 5, userId := 1, title := "night", startDate := mkDate 2024 1 1 22 0 0 0,
          endDate := mkDate 2024 1 2 2 0 0 0, allDay := false }
        (mkDate 2024 1 2 0 0 0 0)).heightPercentage = 7795 / 72 ∧
    100 <
      (dayViewLayout
          { id := 5, userId := 1, title := "night", startDate := mkDate 2024 1 1 22 0 0 0,
            endDate := mkDate 2024 1 2 2 0 0 0, allDay := false }
          (mkDate 2024 1 2 0 0 0 0)).heightPercentage ∧
    dayViewLayout
        { id := 5, userId := 1, title := "night", startDate := mkDate 2024 1 1 22 0 0 0,
          endDate := mkDate 2024 1 2 2 0 0 0, allDay := false }
        (mkDate 2024 1 2 0 0 0 0) ∈
      dayViewProcessedEvents
        [{ id := 5, userId := 1, title := "night", startDate := mkDate 2024 1 1 22 0 0 0,
           endDate := mkDate 2024 1 2 2 0 0 0, allDay := false }]
        (mkDate 2024 1 2 0 0 0 0) ∧
    (dayViewLayout
        { id := 5, userId := 1, title := "night", startDate := mkDate 2024 1 1 22 0 0 0,
          endDate := mkDate 2024 1 2 2 0 0 0, allDay := false }
        (mkDate 2024 1 1 0 0 0 0)).topPercentage = 275 / 3 ∧
    (dayViewLayout
        { id := 5, userId := 1, title := "night", startDate := mkDate 2024 1 1 22 0 0 0,
          endDate := mkDate 2024 1 2 2 0 0 0, allDay := false }
        (mkDate 2024 1 1 0 0 0 0)).heightPercentage = 595 / 72 := by
  have hsm2 : dayViewStartMinutes
      { id := 5, userId := 1, title := "night", startDate := mkDate 2024 1 1 22 0 0 0,
        endDate := mkDate 2024 1 2 2 0 0 0, allDay := false }
      (mkDate 2024 1 2 0 0 0 0) = 0 := by decide
  have hdm2 : dayViewDurationMinutes
      { id := 5, userId := 1, title := "night", startDate := mkDate 2024 1 1 22 0 0 0,
        endDate := mkDate 2024 1 2 2 0 0 0, allDay := false }
      (mkDate 2024 1 2 0 0 0 0) = 1559 := by decide
  have hsm1 : dayViewStartMinutes
      { id := 5, userId := 1, title := "night", startDate := mkDate 2024 1 1 22 0 0 0,
        endDate := mkDate 2024 1 2 2 0 0 0, allDay := false }
      (mkDate 2024 1 1 0 0 0 0) = 1320 := by decide
  have hdm1 : dayViewDurationMinutes
      { id := 5, userId := 1, title := "night", startDate := mkDate 2024 1 1 22 0 0 0,
        endDate := mkDate 2024 1 2 2 0 0 0, allDay := false }
      (mkDate 2024 1 1 0 0 0 0) = 119 := by decide
  refine ⟨?_, ?_, ?_, ?_, ?_, ?_⟩
  · simp only [dayViewLayout, hsm2]
    norm_num
  · simp only [dayViewLayout, hdm2]
    rw [max_eq_left (by norm_num)]
    norm_num
  · simp only [dayViewLayout, hdm2]
    rw [max_eq_left (by norm_num)]
    norm_num
  · exact List.mem_filter.2
      ⟨List.mem_map.2 ⟨_, List.mem_filter.2 ⟨List.mem_cons_self _ _, by decide⟩, rfl⟩,
       by decide⟩
  · simp only [dayViewLayout, hsm1]
    norm_num
  · simp only [dayViewLayout, hdm1]
    rw [max_eq_left (by norm_num)]
    norm_num

/-! ### Claim C3 -/

/-- Claim C3, counterexample: a zero-length timed event (startDate = endDate, 10:00 on
2024-01-01) is not excluded from the timed layout — DayView's overlap filter admits it and
it is rendered (with the 1% minimum height), so the day's processed list is nonempty. -/
theorem zeroLength_event_rendered :
    ({ id := 3, userId := 1, title := "zero", startDate := mkDate 2024 1 1 10 0 0 0,
       endDate := mkDate 2024 1 1 10 0 0 0, allDay := false } : Event).startDate =
      ({ id := 3, userId := 1, title := "zero", startDate := mkDate 2024 1 1 10 0 0 0,
         endDate := mkDate 2024 1 1 10 0 0 0, allDay := false } : Event).endDate ∧
    dayViewProcessedEvents
        [{ id := 3, userId := 1, title := "zero", startDate := mkDate 2024 1 1 10 0 0 0,
           endDate := mkDate 2024 1 1 10 0 0 0, allDay := false }]
        (mkDate 2024 1 1 0 0 0 0) ≠ [] := by
  refine ⟨rfl, List.ne_nil_of_mem (a := dayViewLayout
    { id := 3, userId := 1, title := "zero", startDate := mkDate 2024 1 1 10 0 0 0,
      endDate := mkDate 2024 1 1 10 0 0 0, allDay := false }
    (mkDate 2024 1 1 0 0 0 0)) ?_⟩
  exact List.mem_filter.2
    ⟨List.mem_map.2 ⟨_, List.mem_filter.2 ⟨List.mem_cons_self _ _, by decide⟩, rfl⟩,
     by decide⟩

/-- Claim C3 (amended): a well-formed timed event with `endDate ≤ startDate` on one
calendar day (in particular the zero-length case) is not excluded: on any day whose window
its interval overlaps, the timed layout contains its record, rendered with the minimum
heightPercentage 1, and no error is raised; it also remains retrievable via `getEvent`. -/
theorem degenerate_event_min_height (e : Event) (d : Int) (evs : List Event) (r : DbEvent)
    (hall : e.allDay = false) (hdeg : e.endDate ≤ e.startDate)
    (hsame : isSameDay e.startDate e.endDate = true)
    (hov : areIntervalsOverlapping (startOfDay d) (endOfDay d) e.startDate e.endDate = true)
    (hmem : e ∈ evs) (hr : mapDbEventToEvent r = .ok e) :
    (dayViewLayout e d).heightPercentage = 1 ∧
    dayViewLayout e d ∈ dayViewProcessedEvents evs d ∧
    getEvent [r] r.id = .ok (some e) := by
  refine ⟨?_, ?_, ?_⟩
  · have hdm : dayViewDurationMinutes e d = Int.tdiv (e.endDate - e.startDate) 60000 := by
      simp [dayViewDurationMinutes, hsame, differenceInMinutes]
    have hd0 : dayViewDurationMinutes e d ≤ 0 := by
      rw [hdm, show e.endDate - e.startDate = -(e.startDate - e.endDate) by ring,
        Int.neg_tdiv]
      have := Int.tdiv_nonneg (a := e.startDate - e.endDate) (b := 60000) (by omega)
        (by norm_num)
      omega
    have hq : ((dayViewDurationMinutes e d : ℚ)) ≤ 0 := by exact_mod_cast hd0
    simp only [dayViewLayout]
    rw [max_eq_right (by linarith)]
  · refine List.mem_filter.2 ⟨List.mem_map.2 ⟨e, List.mem_filter.2 ⟨hmem, ?_⟩, rfl⟩, hov⟩
    simp [hall]
  · simp [getEvent, List.find?, hr, Except.map]

/-- Witness for C3's amended theorem at the zero-length 10:00 event. -/
theorem degenerate_event_min_height_witness :
    (({ id := 3, userId := 1, title := "zero", startDate := mkDate 2024 1 1 10 0 0 0,
        endDate := mkDate 2024 1 1 10 0 0 0, allDay := false } : Event).allDay = false ∧
     ({ id := 3, userId := 1, title := "zero", startDate := mkDate 2024 1 1 10 0 0 0,
        endDate := mkDate 2024 1 1 10 0 0 0, allDay := false } : Event).endDate ≤
       ({ id := 3, userId := 1, title := "zero", startDate := mkDate 2024 1 1 10 0 0 0,
          endDate := mkDate 2024 1 1 10 0 0 0, allDay := false } : Event).startDate) ∧
    ((dayViewLayout
        { id := 3, userId := 1, title := "zero", startDate := mkDate 2024 1 1 10 0 0 0,
          endDate := mkDate 2024 1 1 10 0 0 0, allDay := false }
        (mkDate 2024 1 1 0 0 0 0)).heightPercentage = 1 ∧
     dayViewLayout
        { id := 3, userId := 1, title := "zero", startDate := mkDate 2024 1 1 10 0 0 0,
          endDate := mkDate 2024 1 1 10 0 0 0, allDay := false }
        (mkDate 2024 1 1 0 0 0 0) ∈
       dayViewProcessedEvents
        [{ id := 3, userId := 1, title := "zero", startDate := mkDate 2024 1 1 10 0 0 0,
           endDate := mkDate 2024 1 1 10 0 0 0, allDay := false }]
        (mkDate 2024 1 1 0 0 0 0) ∧
     getEvent
        [{ id := 3, userId := some 1, title := "zero", startDate := mkDate 2024 1 1 10 0 0 0,
           endDate := mkDate 2024 1 1 10 0 0 0, allDay := false }]
        ({ id := 3, userId := some 1, title := "zero", startDate := mkDate 2024 1 1 10 0 0 0,
           endDate := mkDate 2024 1 1 10 0 0 0, allDay := false } : DbEvent).id =
       .ok (some { id := 3, userId := 1, title := "zero",
                   startDate := mkDate 2024 1 1 10 0 0 0,
                   endDate := mkDate 2024 1 1 10 0 0 0, allDay := false })) :=
  ⟨⟨rfl, by decide⟩,
   degenerate_event_min_height
     { id := 3, userId := 1, title := "zero", startDate := mkDate 2024 1 1 10 0 0 0,
       endDate := mkDate 2024 1 1 10 0 0 0, allDay := false }
     (mkDate 2024 1 1 0 0 0 0)
     [{ id := 3, userId := 1, title := "zero", startDate := mkDate 2024 1 1 10 0 0 0,
        endDate := mkDate 2024 1 1 10 0 0 0, allDay := false }]
     { id := 3, userId := some 1, title := "zero", startDate := mkDate 2024 1 1 10 0 0 0,
       endDate := mkDate 2024 1 1 10 0 0 0, allDay := false }
     rfl (by decide) (by decide) (by decide) (List.mem_cons_self _ _) rfl⟩

/-! ### Claim C6 -/

/-- Claim C6: every record produced by the DayView or WeekView timed layout has
`heightPercentage = max(durationMinutes/(24*60)*100, 1)`, hence at least the fixed
1% minimum visible height. -/
theorem min_height_floor (evs : List Event) (d : Int) (p q : PositionedEvent)
    (hp : p ∈ dayViewProcessedEvents evs d) (hq : q ∈ weekViewDayEvents evs d) :
    (p.heightPercentage = max ((dayViewDurationMinutes p.event d : ℚ) / (24 * 60) * 100) 1 ∧
     1 ≤ p.heightPercentage) ∧
    (q.heightPercentage = max ((dayViewDurationMinutes q.event d : ℚ) / (24 * 60) * 100) 1 ∧
     1 ≤ q.heightPercentage) := by
  constructor
  · obtain ⟨hp', _⟩ := List.mem_filter.1 hp
    obtain ⟨e, _, rfl⟩ := List.mem_map.1 hp'
    exact ⟨rfl, le_max_right _ _⟩
  · obtain ⟨e, _, rfl⟩ := List.mem_map.1 hq
    exact ⟨rfl, le_max_right _ _⟩

/-- Witness for C6 at a one-minute event (true proportional height 5/72 ≈ 0.07%). -/
theorem min_height_floor_witness :
    (dayViewLayout
        { id := 6, userId := 1, title := "blink", startDate := mkDate 2024 1 1 10 0 0 0,
          endDate := mkDate 2024 1 1 10 1 0 0, allDay := false }
        (mkDate 2024 1 1 0 0 0 0) ∈
      dayViewProcessedEvents
        [{ id := 6, userId := 1, title := "blink", startDate := mkDate 2024 1 1 10 0 0 0,
           endDate := mkDate 2024 1 1 10 1 0 0, allDay := false }]
        (mkDate 2024 1 1 0 0 0 0)) ∧
    (weekViewLayout
        { id := 6, userId := 1, title := "blink", startDate := mkDate 2024 1 1 10 0 0 0,
          endDate := mkDate 2024 1 1 10 1 0 0, allDay := false }
        (mkDate 2024 1 1 0 0 0 0) ∈
      weekViewDayEvents
        [{ id := 6, userId := 1, title := "blink", startDate := mkDate 2024 1 1 10 0 0 0,
           endDate := mkDate 2024 1 1 10 1 0 0, allDay := false }]
        (mkDate 2024 1 1 0 0 0 0)) ∧
    1 ≤ (dayViewLayout
        { id := 6, userId := 1, title := "blink", startDate := mkDate 2024 1 1 10 0 0 0,
          endDate := mkDate 2024 1 1 10 1 0 0, allDay := false }
        (mkDate 2024 1 1 0 0 0 0)).heightPercentage := by
  have hp : dayViewLayout
      { id := 6, userId := 1, title := "blink", startDate := mkDate 2024 1 1 10 0 0 0,
        endDate := mkDate 2024 1 1 10 1 0 0, allDay := false }
      (mkDate 2024 1 1 0 0 0 0) ∈
      dayViewProcessedEvents
        [{ id := 6, userId := 1, title := "blink", startDate := mkDate 2024 1 1 10 0 0 0,
           endDate := mkDate 2024 1 1 10 1 0 0, allDay := false }]
        (mkDate 2024 1 1 0 0 0 0) :=
    List.mem_filter.2
      ⟨List.mem_map.2 ⟨_, List.mem_filter.2 ⟨List.mem_cons_self _ _, by decide⟩, rfl⟩,
       by decide⟩
  have hq : weekViewLayout
      { id := 6, userId := 1, title := "blink", startDate := mkDate 2024 1 1 10 0 0 0,
        endDate := mkDate 2024 1 1 10 1 0 0, allDay := false }
      (mkDate 2024 1 1 0 0 0 0) ∈
      weekViewDayEvents
        [{ id := 6, userId := 1, title := "blink", startDate := mkDate 2024 1 1 10 0 0 0,
           endDate := mkDate 2024 1 1 10 1 0 0, allDay := false }]
        (mkDate 2024 1 1 0 0 0 0) :=
    List.mem_map.2 ⟨_, List.mem_filter.2 ⟨List.mem_cons_self _ _, by decide⟩, rfl⟩
  exact ⟨hp, hq, ((min_height_floor _ _ _ _ hp hq).1).2⟩

/-! ### Claim C7 -/

/-- Claim C7, counterexample: an all-day event spanning 00:00–12:00 of 2024-01-01 overlaps
that day's window, yet DayView selects it when the day is viewed with a morning anchor
(09:00) and drops it with an afternoon anchor (15:00) of the very same day — selection
depends on the anchor's clock time, not only on day-window boundaries. -/
theorem dayView_allDay_depends_on_clock :
    isSameDay (mkDate 2024 1 1 9 0 0 0) (mkDate 2024 1 1 15 0 0 0) = true ∧
    areIntervalsOverlapping (startOfDay (mkDate 2024 1 1 15 0 0 0))
      (endOfDay (mkDate 2024 1 1 15 0 0 0))
      (mkDate 2024 1 1 0 0 0 0) (mkDate 2024 1 1 12 0 0 0) = true ∧
    dayViewAllDayEvents
        [{ id := 9, userId := 1, title := "half", startDate := mkDate 2024 1 1 0 0 0 0,
           endDate := mkDate 2024 1 1 12 0 0 0, allDay := true }]
        (mkDate 2024 1 1 9 0 0 0) =
      [{ id := 9, userId := 1, title := "half", startDate := mkDate 2024 1 1 0 0 0 0,
         endDate := mkDate 2024 1 1 12 0 0 0, allDay := true }] ∧
    dayViewAllDayEvents
        [{ id := 9, userId := 1, title := "half", startDate := mkDate 2024 1 1 0 0 0 0,
           endDate := mkDate 2024 1 1 12 0 0 0, allDay := true }]
        (mkDate 2024 1 1 15 0 0 0) = [] := by
  decide

/-- Claim C7 (amended): WeekView selects an all-day event for day D purely by overlap of
its interval with D's closed day window, independent of the anchor's clock time; DayView
instead includes an all-day event iff the anchor instant itself lies within
`[startDate, endDate]`, which does depend on the anchor's time-of-day. -/
theorem allDay_selection_semantics (evs : List Event) (d t u : Int) (e : Event)
    (hday : dayIndex t = dayIndex u) :
    (e ∈ getAllDayEventsForDay evs d ↔ e ∈ evs ∧ e.allDay = true ∧
      areIntervalsOverlapping (startOfDay d) (endOfDay d) e.startDate e.endDate = true) ∧
    getAllDayEventsForDay evs t = getAllDayEventsForDay evs u ∧
    (e ∈ dayViewAllDayEvents evs t ↔ e ∈ evs ∧ e.allDay = true ∧
      isWithinInterval t e.startDate e.endDate = true) := by
  refine ⟨?_, ?_, ?_⟩
  · rw [getAllDayEventsForDay, List.mem_filter]
    simp [and_assoc]
  · simp only [getAllDayEventsForDay, endOfDay, startOfDay]
    rw [hday]
  · rw [dayViewAllDayEvents, List.mem_filter]
    simp [and_assoc]

/-- Witness for C7's amended theorem at two anchors on the same day. -/
theorem allDay_selection_semantics_witness :
    dayIndex (mkDate 2024 1 1 9 0 0 0) = dayIndex (mkDate 2024 1 1 15 0 0 0) ∧
    getAllDayEventsForDay
        [{ id := 9, userId := 1, title := "half", startDate := mkDate 2024 1 1 0 0 0 0,
           endDate := mkDate 2024 1 1 12 0 0 0, allDay := true }]
        (mkDate 2024 1 1 9 0 0 0) =
      getAllDayEventsForDay
        [{ id := 9, userId := 1, title := "half", startDate := mkDate 2024 1 1 0 0 0 0,
           endDate := mkDate 2024 1 1 12 0 0 0, allDay := true }]
        (mkDate 2024 1 1 15 0 0 0) :=
  ⟨by decide,
   (allDay_selection_semantics
      [{ id := 9, userId := 1, title := "half", startDate := mkDate 2024 1 1 0 0 0 0,
         endDate := mkDate 2024 1 1 12 0 0 0, allDay := true }]
      0 (mkDate 2024 1 1 9 0 0 0) (mkDate 2024 1 1 15 0 0 0)
      { id := 9, userId := 1, title := "half", startDate := mkDate 2024 1 1 0 0 0 0,
        endDate := mkDate 2024 1 1 12 0 0 0, allDay := true }
      (by decide)).2.1⟩

/-! ### Claim C5 -/

/-- Claim C5, counterexample: with configured weekStart = monday and anchor 2024-03-15
(a Friday), the most recent Monday at or before the anchor is 2024-03-11 at midnight
(weekday 1, time 00:00, within 7 days before the anchor), yet the code's week window
starts 2024-03-10 (the Sunday): `weekStartsOn: 0` is hardcoded in `dateRange`. -/
theorem week_window_ignores_monday_setting :
    (dateRangeWeek (mkDate 2024 3 15 0 0 0 0)).1 = mkDate 2024 3 10 0 0 0 0 ∧
    getDay (mkDate 2024 3 11 0 0 0 0) = 1 ∧
    msOfDay (mkDate 2024 3 11 0 0 0 0) = 0 ∧
    mkDate 2024 3 11 0 0 0 0 ≤ mkDate 2024 3 15 0 0 0 0 ∧
    mkDate 2024 3 15 0 0 0 0 - mkDate 2024 3 11 0 0 0 0 < 7 * 86400000 ∧
    (dateRangeWeek (mkDate 2024 3 15 0 0 0 0)).1 ≠ mkDate 2024 3 11 0 0 0 0 := by
  decide

/-- Claim C5 (amended): for every anchor, the resolved week window starts at the most
recent Sunday at or before the anchor, at 00:00:00 (weekday 0, midnight, no more than six
days back), and ends 6 days later at 23:59:59.999 — the configured weekStart is ignored
(`weekStartsOn: 0` hardcoded), so the claim holds for the sunday configuration only. -/
theorem week_window_always_sunday (anchor : Int) :
    getDay (dateRangeWeek anchor).1 = 0 ∧
    msOfDay (dateRangeWeek anchor).1 = 0 ∧
    (dateRangeWeek anchor).1 ≤ startOfDay anchor ∧
    startOfDay anchor - (dateRangeWeek anchor).1 < 7 * 86400000 ∧
    (dateRangeWeek anchor).2 = (dateRangeWeek anchor).1 + 6 * 86400000 + 86399999 := by
  simp only [dateRangeWeek, startOfWeek, endOfWeek, addDays, startOfDay, endOfDay, getDay,
    dayIndex, msOfDay]
  refine ⟨?_, ?_, ?_, ?_, ?_⟩ <;> omega

/-! ### Settings lemmas -/

theorem jsOr_eq_getD {o : Option String} (d : String) (h : o ≠ some "") :
    jsOr o d = o.getD d := by
  cases o with
  | none => rfl
  | some s =>
      simp only [jsOr, Option.getD]
      rw [if_neg]
      intro heq
      exact h (by rw [heq])

theorem jsOr_ne_empty {o : Option String} {d : String} (h : o ≠ some "") (hd : d ≠ "") :
    jsOr o d ≠ "" := by
  cases o with
  | none => exact hd
  | some s =>
      simp only [jsOr]
      split
      · exact hd
      · intro heq
        exact h (by rw [heq])

theorem jsOrStr_eq_self {s : String} (d : String) (h : s ≠ "") : jsOrStr s d = s := by
  simp only [jsOrStr]
  exact if_neg h

/-! ### Claim C8 -/

/-- Claim C8: `updateSettings` is a read-modify-write merge: with a stored row, each field
present in the patch overrides it and each omitted field keeps its stored value exactly;
with no row, present fields override the defaults (dark / sunday / 12h / dots); the merged
row is written back under the requested user id (insert or update) and returned, and every
other user's row is untouched. -/
theorem updateSettings_merge_semantics (store : Nat → Option StoredSettings)
    (uo : Option Nat) (p : SettingsPatch)
    (ht : p.theme ≠ some "") (hs : p.startOfWeek ≠ some "") (hf : p.timeFormat ≠ some "")
    (he : p.eventDisplayMode ≠ some "") :
    (∀ ex, store (uo.getD defaultUserId) = some ex → ex.eventDisplayMode ≠ "" →
      (updateSettings p uo store).1 =
        { theme := p.theme.getD ex.theme,
          startOfWeek := p.startOfWeek.getD ex.startOfWeek,
          timeFormat := p.timeFormat.getD ex.timeFormat,
          eventDisplayMode := p.eventDisplayMode.getD ex.eventDisplayMode } ∧
      (updateSettings p uo store).2 (uo.getD defaultUserId) =
        some (updateSettings p uo store).1) ∧
    (store (uo.getD defaultUserId) = none →
      (updateSettings p uo store).1 =
        { theme := p.theme.getD "dark",
          startOfWeek := p.startOfWeek.getD "sunday",
          timeFormat := p.timeFormat.getD "12h",
          eventDisplayMode := p.eventDisplayMode.getD "dots" } ∧
      (updateSettings p uo store).2 (uo.getD defaultUserId) =
        some (updateSettings p uo store).1) ∧
    (∀ v, v ≠ uo.getD defaultUserId → (updateSettings p uo store).2 v = store v) := by
  refine ⟨?_, ?_, ?_⟩
  · intro ex hex hedm
    have hupd : jsOr p.eventDisplayMode (jsOrStr ex.eventDisplayMode "dots") =
        p.eventDisplayMode.getD ex.eventDisplayMode := by
      rw [jsOrStr_eq_self _ hedm, jsOr_eq_getD _ he]
    have hne : jsOr p.eventDisplayMode (jsOrStr ex.eventDisplayMode "dots") ≠ "" := by
      rw [jsOrStr_eq_self _ hedm]
      exact jsOr_ne_empty he hedm
    simp only [updateSettings, hex]
    rw [jsOrStr_eq_self _ hne]
    constructor
    · rw [jsOr_eq_getD _ ht, jsOr_eq_getD _ hs, jsOr_eq_getD _ hf, hupd]
    · simp
  · intro hex
    have hne : jsOr p.eventDisplayMode "dots" ≠ "" := jsOr_ne_empty he (by decide)
    simp only [updateSettings, hex]
    rw [jsOrStr_eq_self _ hne]
    constructor
    · rw [jsOr_eq_getD _ ht, jsOr_eq_getD _ hs, jsOr_eq_getD _ hf, jsOr_eq_getD _ he]
    · simp
  · intro v hv
    cases hex : store (uo.getD defaultUserId) with
    | some ex =>
        simp only [updateSettings, hex]
        rw [if_neg hv]
    | none =>
        simp only [updateSettings, hex]
        rw [if_neg hv]

/-- Witness for C8 at the spec's example: stored dark/sunday/12h/dots updated with
theme = light yields light/sunday/12h/dots; other users are untouched. -/
theorem updateSettings_merge_semantics_witness :
    (((⟨some "light", none, none, none⟩ : SettingsPatch).theme ≠ some "") ∧
     ((⟨some "light", none, none, none⟩ : SettingsPatch).startOfWeek ≠ some "") ∧
     ((⟨some "light", none, none, none⟩ : SettingsPatch).timeFormat ≠ some "") ∧
     ((⟨some "light", none, none, none⟩ : SettingsPatch).eventDisplayMode ≠ some "")) ∧
    ((∀ ex, (fun v => if v = 1 then
          some (⟨"dark", "sunday", "12h", "dots"⟩ : StoredSettings) else none)
            ((none : Option Nat).getD defaultUserId) = some ex →
        ex.eventDisplayMode ≠ "" →
        (updateSettings ⟨some "light", none, none, none⟩ none
            (fun v => if v = 1 then
              some (⟨"dark", "sunday", "12h", "dots"⟩ : StoredSettings) else none)).1 =
          { theme := (some "light").getD ex.theme,
            startOfWeek := (none : Option String).getD ex.startOfWeek,
            timeFormat := (none : Option String).getD ex.timeFormat,
            eventDisplayMode := (none : Option String).getD ex.eventDisplayMode } ∧
        (updateSettings ⟨some "light", none, none, none⟩ none
            (fun v => if v = 1 then
              some (⟨"dark", "sunday", "12h", "dots"⟩ : StoredSettings) else none)).2
            ((none : Option Nat).getD defaultUserId) =
          some (updateSettings ⟨some "light", none, none, none⟩ none
            (fun v => if v = 1 then
              some (⟨"dark", "sunday", "12h", "dots"⟩ : StoredSettings) else none)).1) ∧
     ((fun v => if v = 1 then
          some (⟨"dark", "sunday", "12h", "dots"⟩ : StoredSettings) else none)
            ((none : Option Nat).getD defaultUserId) = none →
        (updateSettings ⟨some "light", none, none, none⟩ none
            (fun v => if v = 1 then
              some (⟨"dark", "sunday", "12h", "dots"⟩ : StoredSettings) else none)).1 =
          { theme := (some "light").getD "dark",
            startOfWeek := (none : Option String).getD "sunday",
            timeFormat := (none : Option String).getD "12h",
            eventDisplayMode := (none : Option String).getD "dots" } ∧
        (updateSettings ⟨some "light", none, none, none⟩ none
            (fun v => if v = 1 then
              some (⟨"dark", "sunday", "12h", "dots"⟩ : StoredSettings) else none)).2
            ((none : Option Nat).getD defaultUserId) =
          some (updateSettings ⟨some "light", none, none, none⟩ none
            (fun v => if v = 1 then
              some (⟨"dark", "sunday", "12h", "dots"⟩ : StoredSettings) else none)).1) ∧
     (∀ v, v ≠ (none : Option Nat).getD defaultUserId →
        (updateSettings ⟨some "light", none, none, none⟩ none
            (fun v => if v = 1 then
              some (⟨"dark", "sunday", "12h", "dots"⟩ : StoredSettings) else none)).2 v =
          (fun v => if v = 1 then
            some (⟨"dark", "sunday", "12h", "dots"⟩ : StoredSettings) else none) v)) :=
  ⟨⟨by decide, by decide, by decide, by decide⟩,
   updateSettings_merge_semantics
     (fun v => if v = 1 then some (⟨"dark", "sunday", "12h", "dots"⟩ : StoredSettings)
      else none)
     none ⟨some "light", none, none, none⟩ (by decide) (by decide) (by decide) (by decide)⟩

/-! ### Claim C9 -/

/-- Claim C9 (code bug witnessed on the code): the settings route performs no validation —
`updateSettings` with the out-of-enumeration theme value "blue" stores it verbatim in the
user's row and returns it, instead of rejecting the request before core logic. -/
theorem invalid_theme_stored_unvalidated :
    (updateSettings ⟨some "blue", none, none, none⟩ none
        (fun v => if v = 1 then
          some (⟨"dark", "sunday", "12h", "dots"⟩ : StoredSettings) else none)).2 1 =
      some ⟨"blue", "sunday", "12h", "dots"⟩ ∧
    (updateSettings ⟨some "blue", none, none, none⟩ none
        (fun v => if v = 1 then
          some (⟨"dark", "sunday", "12h", "dots"⟩ : StoredSettings) else none)).1.theme =
      "blue" ∧
    ¬("blue" = "dark" ∨ "blue" = "light") := by
  decide

end NoireCalendar
